import Mathlib

/-!
Shallow embedding of `src/modal-embeddings/app.py` (MemoryRouter embedding
service on Modal): the `EmbeddingService` class (`embed`, `health` methods)
and the FastAPI routes `/embed` and `/v1/embeddings`.

Modelling conventions:
* Vector entries are abstracted as `Int` (the numeric content of the
  embeddings is produced by the external `sentence-transformers` library and
  no claim depends on the scalar arithmetic, only on shapes and plumbing).
* The external `SentenceTransformer.encode` call is modelled by a `Model`
  handle bundling a per-text encoding function together with the library's
  interface contract: `encode(texts, ...)` returns a numpy array of shape
  `(len(texts), dim)`, i.e. one row per input text, in order, each row of the
  model's fixed dimensionality.
* Environment-supplied values (`torch.cuda.get_device_name(0)`, the measured
  wall-clock latency) are passed in as an `Env` record.
* The service object (`self` after `load_model`) is a `ServiceState`; every
  method and HTTP handler is embedded in state-passing style, returning its
  result together with the (possibly updated) service state, so that
  statements about mutation of service state can be made.
* FastAPI's `HTTPException(400, msg)` is an `HttpError`; a handler returns
  `Except HttpError α`.
-/

namespace MemoryRouter

/-- Abstraction of the external `SentenceTransformer` model object: a fixed
output dimensionality, a per-text encoding function (one vector per input
text), and the library contract that every produced vector has length
`dim`. -/
structure Model where
  dim : Nat
  encode1 : String → Bool → List Int
  encode1_len : ∀ s b, (encode1 s b).length = dim

/-- `self.model.encode(texts, normalize_embeddings=normalize, ...,
convert_to_numpy=True)`: a numpy array of shape `(len(texts), dim)`,
modelled as the list of per-text vectors in input order. -/
def Model.encode (m : Model) (texts : List String) (normalize : Bool) :
    List (List Int) :=
  texts.map (fun t => m.encode1 t normalize)

/-- `numpy`'s `arr.shape[1]` for a 2-dimensional array given as its list of
rows: the common row length. -/
def shape1 (rows : List (List Int)) : Nat :=
  (rows.headD []).length

/-- The service object after `load_model` ran: `self.model_name` and the
resident `self.model` handle. -/
structure ServiceState where
  model_name : String
  model : Model

/-- Environment-supplied values read by the methods: the CUDA device name
and the measured latency (`round((time.perf_counter() - start) * 1000, 2)`),
abstracted as an integer number of hundredths of a millisecond. -/
structure Env where
  gpuName : String
  latencyMs : Int

/-- The dict returned by `EmbeddingService.embed`. -/
structure EmbedResult where
  embeddings : List (List Int)
  dims : Nat
  count : Nat
  model : String
  latency_ms : Int
  deriving Repr, DecidableEq

/-- `EmbeddingService.embed(self, texts, normalize=True)` in state-passing
style: encodes the texts with the resident model and assembles the result
dict.  The method body never assigns to `self`, so the state component of
the result is the input state. -/
def EmbeddingService.embed (s : ServiceState) (env : Env)
    (texts : List String) (normalize : Bool) : EmbedResult × ServiceState :=
  let embeddings := s.model.encode texts normalize
  ({ embeddings := embeddings
     dims := shape1 embeddings
     count := texts.length
     model := s.model_name
     latency_ms := env.latencyMs }, s)

/-- The dict returned by `EmbeddingService.health`. -/
structure HealthResult where
  status : String
  model : String
  gpu : String
  dims : Nat
  deriving Repr, DecidableEq

/-- `EmbeddingService.health(self)` in state-passing style. -/
def EmbeddingService.health (s : ServiceState) (env : Env) :
    HealthResult × ServiceState :=
  ({ status := "healthy"
     model := s.model_name
     gpu := env.gpuName
     dims := 1024 }, s)

/-- `fastapi.HTTPException(status_code, detail)` as raised by the routes. -/
structure HttpError where
  code : Nat
  detail : String
  deriving Repr, DecidableEq

/-- `True` exactly on a raised `HTTPException` with status code 400. -/
def isHttp400 {α : Type} : Except HttpError α → Bool
  | .error e => e.code == 400
  | .ok _ => false

/-- The `POST /embed` route handler (`embed(req: EmbedRequest)`), after the
body parsed as `\x7btexts: list of strings, normalize: bool\x7d`:
`if not req.texts: raise HTTPException(400, ...)`, then
`if len(req.texts) > 100: raise HTTPException(400, ...)`, then forward to
`EmbeddingService.embed`. -/
def embedRoute (s : ServiceState) (env : Env)
    (texts : List String) (normalize : Bool) :
    Except HttpError EmbedResult × ServiceState :=
  if texts.isEmpty then
    (.error ⟨400, "texts array required"⟩, s)
  else if 100 < texts.length then
    (.error ⟨400, "max 100 texts per request"⟩, s)
  else
    let r := EmbeddingService.embed s env texts normalize
    (.ok r.1, r.2)

/-- The JSON value found at key `"input"` of the `/v1/embeddings` request
body (a raw `dict`): absent, a single string, or an array of strings. -/
inductive InputVal
  | absent
  | str (s : String)
  | arr (l : List String)
  deriving Repr, DecidableEq

/-- The `/v1/embeddings` request body: the `"input"` field plus any other
fields (e.g. a `"normalize"` flag), which the handler never reads. -/
structure OpenAIRequest where
  input : InputVal
  normalizeField : Option Bool
  otherFields : List (String × String)
  deriving Repr, DecidableEq

/-- `input_text = req.get("input", [])` followed by
`if isinstance(input_text, str): input_text = [input_text]`. -/
def getInputText : InputVal → List String
  | .absent => []
  | .str s => [s]
  | .arr l => l

/-- Helper for `pySplitLen`: count maximal runs of non-whitespace
characters; `inWord` records whether the previous character was part of a
word. -/
def wordCount : List Char → Bool → Nat
  | [], _ => 0
  | c :: cs, inWord =>
    if c.isWhitespace then wordCount cs false
    else (if inWord then 0 else 1) + wordCount cs true

/-- Python's `len(t.split())`: the number of maximal whitespace-separated
words of `t` (`str.split()` with no argument splits on runs of whitespace
and produces no empty pieces). -/
def pySplitLen (t : String) : Nat :=
  wordCount t.toList false

/-- `sum(len(t.split()) for t in input_text)`. -/
def tokenSum (input_text : List String) : Nat :=
  (input_text.map pySplitLen).sum

/-- One entry of the `data` array of the OpenAI-compatible response. -/
structure OpenAIItem where
  object : String
  index : Nat
  embedding : List Int
  deriving Repr, DecidableEq

/-- The `usage` record of the OpenAI-compatible response. -/
structure Usage where
  prompt_tokens : Nat
  total_tokens : Nat
  deriving Repr, DecidableEq

/-- The OpenAI-compatible response body. -/
structure OpenAIResponse where
  object : String
  model : String
  data : List OpenAIItem
  usage : Usage
  deriving Repr, DecidableEq

/-- The success branch of the `/v1/embeddings` handler: wraps an
`EmbedResult` in the OpenAI-compatible format, enumerating the embeddings
as `data` entries and counting whitespace-separated words for `usage`. -/
def openaiWrap (input_text : List String) (result : EmbedResult) :
    OpenAIResponse :=
  { object := "list"
    model := result.model
    data := result.embeddings.enum.map
      (fun p => { object := "embedding", index := p.1, embedding := p.2 })
    usage := { prompt_tokens := tokenSum input_text
               total_tokens := tokenSum input_text } }

/-- The `POST /v1/embeddings` route handler (`openai_compatible(req)`):
extract and wrap `input`, `if not input_text: raise HTTPException(400,
"input required")`, call `service.embed.remote(input_text, normalize=True)`
and return the OpenAI-compatible format. -/
def openaiRoute (s : ServiceState) (env : Env) (req : OpenAIRequest) :
    Except HttpError OpenAIResponse × ServiceState :=
  let input_text := getInputText req.input
  if input_text.isEmpty then
    (.error ⟨400, "input required"⟩, s)
  else
    let r := EmbeddingService.embed s env input_text true
    (.ok (openaiWrap input_text r.1), r.2)

/-- The `GET /health` route handler: forwards to
`EmbeddingService.health`. -/
def healthRoute (s : ServiceState) (env : Env) :
    HealthResult × ServiceState :=
  EmbeddingService.health s env

/-- A concrete model handle used to instantiate witnesses: dimensionality 3,
every text encoded to `[1, 2, 3]`. -/
def testModel : Model where
  dim := 3
  encode1 := fun _ _ => [1, 2, 3]
  encode1_len := fun _ _ => rfl

/-- A concrete service state for witnesses. -/
def testState : ServiceState where
  model_name := "NovaSearch/stella_en_400M_v5"
  model := testModel

/-- A concrete environment for witnesses. -/
def testEnv : Env where
  gpuName := "Tesla T4"
  latencyMs := 1234

/-! ## Helper lemmas (shared) -/

/-- The model encodes one vector per input text. -/
theorem Model.encode_length (m : Model) (texts : List String) (b : Bool) :
    (m.encode texts b).length = texts.length := by
  simp [Model.encode]

/-- Every vector produced by the model has length `m.dim`. -/
theorem Model.length_of_mem_encode (m : Model) {texts : List String}
    {b : Bool} {v : List Int} (hv : v ∈ m.encode texts b) :
    v.length = m.dim := by
  simp only [Model.encode, List.mem_map] at hv
  obtain ⟨t, _, rfl⟩ := hv
  exact m.encode1_len t b

/-- On a non-empty batch, `shape[1]` of the encoded array is the model
dimensionality. -/
theorem shape1_encode (m : Model) {texts : List String} (b : Bool)
    (h : texts ≠ []) : shape1 (m.encode texts b) = m.dim := by
  cases texts with
  | nil => exact absurd rfl h
  | cons t ts =>
    simp only [Model.encode, List.map_cons, shape1, List.headD_cons]
    exact m.encode1_len t b

/-! ## Claim theorems -/

/-- C1: for every POST `/embed` request whose body parses as
`\x7btexts: list of strings, normalize: bool\x7d`, the handler raises
HTTP 400 if and only if `texts` is empty or has more than 100 elements
(so a request with exactly 100 texts is not rejected by this
validation). -/
theorem embedRoute_http400_iff (s : ServiceState) (env : Env)
    (texts : List String) (normalize : Bool) :
    isHttp400 (embedRoute s env texts normalize).1 = true ↔
      texts = [] ∨ 100 < texts.length := by
  cases texts with
  | nil => simp [embedRoute, isHttp400]
  | cons t ts =>
    simp only [List.length_cons]
    by_cases h : 100 < ts.length + 1
    · simp [embedRoute, isHttp400, h]
    · simp [embedRoute, isHttp400, h]

/-- C2: for a non-empty batch of at most 100 texts, the embed operation
returns `count` equal to the number of texts, an `embeddings` list with one
vector per input text in the same order, and every vector of length equal
to the returned `dims` field. -/
theorem embed_shape (s : ServiceState) (env : Env) (texts : List String)
    (normalize : Bool) (hne : texts ≠ []) (_hle : texts.length ≤ 100) :
    (EmbeddingService.embed s env texts normalize).1.count = texts.length ∧
    (EmbeddingService.embed s env texts normalize).1.embeddings.length =
      texts.length ∧
    (EmbeddingService.embed s env texts normalize).1.embeddings =
      texts.map (fun t => s.model.encode1 t normalize) ∧
    ∀ v ∈ (EmbeddingService.embed s env texts normalize).1.embeddings,
      v.length = (EmbeddingService.embed s env texts normalize).1.dims := by
  refine ⟨rfl, s.model.encode_length texts normalize, rfl, ?_⟩
  intro v hv
  show v.length = shape1 (s.model.encode texts normalize)
  rw [shape1_encode s.model normalize hne]
  exact s.model.length_of_mem_encode hv

/-- Witness for C2 at a concrete model, environment and two-text batch. -/
theorem embed_shape_witness :
    (EmbeddingService.embed testState testEnv ["a", "b"] true).1.count =
      (["a", "b"] : List String).length ∧
    (EmbeddingService.embed testState testEnv ["a", "b"] true).1.embeddings.length =
      (["a", "b"] : List String).length ∧
    (EmbeddingService.embed testState testEnv ["a", "b"] true).1.embeddings =
      (["a", "b"] : List String).map (fun t => testState.model.encode1 t true) ∧
    ∀ v ∈ (EmbeddingService.embed testState testEnv ["a", "b"] true).1.embeddings,
      v.length = (EmbeddingService.embed testState testEnv ["a", "b"] true).1.dims :=
  embed_shape testState testEnv ["a", "b"] true (by decide) (by decide)

/-- C3: a `/v1/embeddings` request whose `input` is the single string `s`
produces exactly the same outcome (status, body and resulting state) as
one whose `input` is the one-element array `[s]`. -/
theorem openai_string_eq_singleton (s : ServiceState) (env : Env)
    (txt : String) (nf : Option Bool) (of : List (String × String)) :
    openaiRoute s env ⟨.str txt, nf, of⟩ =
      openaiRoute s env ⟨.arr [txt], nf, of⟩ := rfl

/-- C4: a `/v1/embeddings` request raises HTTP 400 exactly when its input
is empty (the `input` field is absent or an empty array); otherwise
validation passes and the embed operation is invoked, its result returned
in the OpenAI-compatible wrapping. -/
theorem openai_http400_iff (s : ServiceState) (env : Env)
    (req : OpenAIRequest) :
    (isHttp400 (openaiRoute s env req).1 = true ↔
      req.input = .absent ∨ req.input = .arr []) ∧
    (¬(req.input = .absent ∨ req.input = .arr []) →
      (openaiRoute s env req).1 =
        .ok (openaiWrap (getInputText req.input)
          (EmbeddingService.embed s env (getInputText req.input) true).1)) := by
  obtain ⟨input, nf, of⟩ := req
  cases input with
  | absent => simp [openaiRoute, getInputText, isHttp400]
  | str t => simp [openaiRoute, getInputText, isHttp400]
  | arr l =>
    cases l with
    | nil => simp [openaiRoute, getInputText, isHttp400]
    | cons t ts => simp [openaiRoute, getInputText, isHttp400]

/-- Witness for C4 at a concrete one-string-array request. -/
theorem openai_http400_iff_witness :
    (isHttp400 (openaiRoute testState testEnv ⟨.arr ["hi"], none, []⟩).1 = true ↔
      (InputVal.arr ["hi"]) = .absent ∨ (InputVal.arr ["hi"]) = .arr []) ∧
    (¬((InputVal.arr ["hi"]) = .absent ∨ (InputVal.arr ["hi"]) = .arr []) →
      (openaiRoute testState testEnv ⟨.arr ["hi"], none, []⟩).1 =
        .ok (openaiWrap (getInputText (.arr ["hi"]))
          (EmbeddingService.embed testState testEnv
            (getInputText (.arr ["hi"])) true).1)) :=
  openai_http400_iff testState testEnv ⟨.arr ["hi"], none, []⟩

/-- C5: whenever the model is loaded (i.e. on any service state), the
health operation returns `status = "healthy"` together with the model
identifier, the GPU device name and a `dims` field. -/
theorem health_healthy (s : ServiceState) (env : Env) :
    (EmbeddingService.health s env).1.status = "healthy" ∧
    (EmbeddingService.health s env).1.model = s.model_name ∧
    (EmbeddingService.health s env).1.gpu = env.gpuName ∧
    (EmbeddingService.health s env).1.dims = 1024 :=
  ⟨rfl, rfl, rfl, rfl⟩

/-- C6: every successful `/v1/embeddings` response has `object = "list"`,
the model field of the embed result, a `data` list whose `i`-th entry has
`object = "embedding"`, `index = i` and `embedding` equal to the `i`-th
vector of the embed result, and a `usage` record with `prompt_tokens` and
`total_tokens` (both the whitespace word count of the input). -/
theorem openai_response_format (s : ServiceState) (env : Env)
    (req : OpenAIRequest) (h : getInputText req.input ≠ []) :
    ∃ r, (openaiRoute s env req).1 = .ok r ∧
      r.object = "list" ∧
      r.model =
        (EmbeddingService.embed s env (getInputText req.input) true).1.model ∧
      r.data.length =
        (EmbeddingService.embed s env
          (getInputText req.input) true).1.embeddings.length ∧
      (∀ i, i < r.data.length →
        (r.data.getD i ⟨"", 0, []⟩).object = "embedding" ∧
        (r.data.getD i ⟨"", 0, []⟩).index = i ∧
        (r.data.getD i ⟨"", 0, []⟩).embedding =
          (EmbeddingService.embed s env
            (getInputText req.input) true).1.embeddings.getD i []) ∧
      r.usage.prompt_tokens = tokenSum (getInputText req.input) ∧
      r.usage.total_tokens = tokenSum (getInputText req.input) := by
  have hfalse : (getInputText req.input).isEmpty = false := by
    rcases hcase : getInputText req.input with _ | ⟨a, l⟩
    · exact absurd hcase h
    · rfl
  refine ⟨openaiWrap (getInputText req.input)
      (EmbeddingService.embed s env (getInputText req.input) true).1,
    ?_, rfl, rfl, ?_, ?_, rfl, rfl⟩
  · simp [openaiRoute, hfalse]
  · simp [openaiWrap, List.length_map, List.enum_length]
  · intro i hi
    have hdata : i < ((EmbeddingService.embed s env (getInputText req.input)
        true).1.embeddings.enum.map
        (fun p => ({ object := "embedding", index := p.1, embedding := p.2 } :
          OpenAIItem))).length := by
      simpa [openaiWrap] using hi
    have hemb : i < (EmbeddingService.embed s env (getInputText req.input)
        true).1.embeddings.length := by
      simpa [List.length_map, List.enum_length] using hdata
    have henum : i < (EmbeddingService.embed s env (getInputText req.input)
        true).1.embeddings.enum.length := by
      simpa [List.enum_length] using hemb
    refine ⟨?_, ?_, ?_⟩ <;>
      simp [openaiWrap, List.getD_eq_getElem _ _ hdata,
        List.getD_eq_getElem _ _ hemb, List.getElem_map, List.getElem_enum,
        List.getElem?_eq_getElem hemb]

/-- Witness for C6 at a concrete two-text request. -/
theorem openai_response_format_witness :
    ∃ r, (openaiRoute testState testEnv
        ⟨.arr ["hello world", "x"], none, []⟩).1 = .ok r ∧
      r.object = "list" ∧
      r.model = (EmbeddingService.embed testState testEnv
        (getInputText (.arr ["hello world", "x"])) true).1.model ∧
      r.data.length = (EmbeddingService.embed testState testEnv
        (getInputText (.arr ["hello world", "x"])) true).1.embeddings.length ∧
      (∀ i, i < r.data.length →
        (r.data.getD i ⟨"", 0, []⟩).object = "embedding" ∧
        (r.data.getD i ⟨"", 0, []⟩).index = i ∧
        (r.data.getD i ⟨"", 0, []⟩).embedding =
          (EmbeddingService.embed testState testEnv
            (getInputText (.arr ["hello world", "x"]))
            true).1.embeddings.getD i []) ∧
      r.usage.prompt_tokens = tokenSum (getInputText (.arr ["hello world", "x"])) ∧
      r.usage.total_tokens = tokenSum (getInputText (.arr ["hello world", "x"])) :=
  openai_response_format testState testEnv
    ⟨.arr ["hello world", "x"], none, []⟩ (by decide)

/-- C7: after the one-time model load, no operation (embed, health, or any
HTTP handler) changes the service state: each returns the state it was
given. -/
theorem state_frame (s : ServiceState) (env : Env) (texts : List String)
    (normalize : Bool) (req : OpenAIRequest) :
    (EmbeddingService.embed s env texts normalize).2 = s ∧
    (EmbeddingService.health s env).2 = s ∧
    (embedRoute s env texts normalize).2 = s ∧
    (openaiRoute s env req).2 = s ∧
    (healthRoute s env).2 = s := by
  refine ⟨rfl, rfl, ?_, ?_, rfl⟩
  · unfold embedRoute
    split
    · rfl
    · split <;> rfl
  · unfold openaiRoute
    dsimp only
    split <;> rfl

/-- C9: for every `/v1/embeddings` request that passes validation, the
handler's outcome does not depend on any `normalize` flag or other extra
field of the request body, and it invokes the embed operation with
`normalize = true`. -/
theorem openai_forces_normalize (s : ServiceState) (env : Env)
    (input : InputVal) (nf nf' : Option Bool)
    (of of' : List (String × String)) (h : getInputText input ≠ []) :
    openaiRoute s env ⟨input, nf, of⟩ = openaiRoute s env ⟨input, nf', of'⟩ ∧
    (openaiRoute s env ⟨input, nf, of⟩).1 =
      .ok (openaiWrap (getInputText input)
        (EmbeddingService.embed s env (getInputText input) true).1) := by
  have hfalse : (getInputText input).isEmpty = false := by
    rcases hcase : getInputText input with _ | ⟨a, l⟩
    · exact absurd hcase h
    · rfl
  exact ⟨rfl, by simp [openaiRoute, hfalse]⟩

/-- Witness for C9 at a concrete single-string request with differing
extra fields. -/
theorem openai_forces_normalize_witness :
    openaiRoute testState testEnv ⟨.str "hi", some false, []⟩ =
      openaiRoute testState testEnv ⟨.str "hi", some true, [("user", "u")]⟩ ∧
    (openaiRoute testState testEnv ⟨.str "hi", some false, []⟩).1 =
      .ok (openaiWrap (getInputText (.str "hi"))
        (EmbeddingService.embed testState testEnv
          (getInputText (.str "hi")) true).1) :=
  openai_forces_normalize testState testEnv (.str "hi") (some false)
    (some true) [] [("user", "u")] (by decide)

/-- C10: a `/v1/embeddings` request whose input is the empty string is not
rejected with HTTP 400: it is wrapped into the one-element list `[""]` and
processed as a valid one-element batch. -/
theorem openai_empty_string_ok (s : ServiceState) (env : Env)
    (nf : Option Bool) (of : List (String × String)) :
    isHttp400 (openaiRoute s env ⟨.str "", nf, of⟩).1 = false ∧
    (openaiRoute s env ⟨.str "", nf, of⟩).1 =
      .ok (openaiWrap [""] (EmbeddingService.embed s env [""] true).1) :=
  ⟨rfl, rfl⟩

end MemoryRouter
